import Mathlib

/-!
Verification development for the adhdv2t repository (src/bot.py, src/server.py,
src/database.py): a voice-to-task Telegram bot with a freemium quota, a Stripe
billing webhook, and a timezone-aware daily digest sweep.

The Python source is shallowly embedded below.  Conventions:
- SQLite rows become Lean structures; the database becomes an explicit `DB`
  value threaded through the handlers.
- Python float minutes (REAL column `minutes_used`) are modelled as `ℚ`.
- Fallible external steps (file download, Gemini transcription, Telegram
  sends) become explicit outcome parameters of the handlers.
- Python truthiness of optional JSON fields is modelled by the `truthy…`
  helpers (None and 0 and "" and False are falsy).
-/

/-- One row of the `users` table (src/database.py, `init_db`), restricted to
the columns the claims exercise. -/
structure Account where
  user_id : String
  plan_tier : String
  minutes_used : ℚ
  stripe_customer_id : Option String
  digest_time : String
  timezone : String
deriving DecidableEq, Repr

/-- One row of the `tasks` table (src/database.py, `init_db`). -/
structure TaskRow where
  id : Nat
  user_id : String
  task_content : String
  is_digest_sent : Bool
deriving DecidableEq, Repr

/-- The whole store: `users` and `tasks` tables plus the AUTOINCREMENT
counter for task ids. -/
structure DB where
  users : List Account
  tasks : List TaskRow
  nextId : Nat
deriving DecidableEq, Repr

/-- Row defaults from `init_db`: plan_tier 'free', minutes_used 0.0,
digest_time '18:00', timezone 'UTC' (src/database.py lines 83-93, 111). -/
def defaultAccount (uid : String) : Account :=
  { user_id := uid, plan_tier := "free", minutes_used := 0,
    stripe_customer_id := none, digest_time := "18:00", timezone := "UTC" }

/-- Embeds `check_user_status` (src/database.py lines 103-117): SELECT the
row, INSERT defaults when absent, and return the row. -/
def check_user_status (db : DB) (uid : String) : Account × DB :=
  match db.users.find? (fun u => u.user_id == uid) with
  | some u => (u, db)
  | none => (defaultAccount uid, { db with users := db.users ++ [defaultAccount uid] })

/-- Pure effect of `update_user` (src/database.py lines 119-132): the SQL
UPDATE rewrites every row whose user_id matches; with no matching row it is
a silent no-op. -/
def applyUpdate (db : DB) (uid : String) (f : Account → Account) : DB :=
  { db with users := db.users.map (fun u => if u.user_id = uid then f u else u) }

/-- Errors the Account Store could signal to a caller.  `update_user` never
constructs one: a SQL UPDATE that matches zero rows succeeds silently and
the Python code does not inspect the affected-row count. -/
inductive DBFailure where
  | notFound
deriving DecidableEq, Repr

/-- Embeds `update_user` (src/database.py lines 119-132) at the contract
level: the observable result the caller gets.  The UPDATE always succeeds,
even when no row matches. -/
def update_user (db : DB) (uid : String) (f : Account → Account) :
    Except DBFailure DB :=
  Except.ok (applyUpdate db uid f)

/-- Embeds `add_task` (src/database.py lines 134-137): INSERT with the
AUTOINCREMENT id and `is_digest_sent` defaulting to false. -/
def add_task (db : DB) (uid content : String) : DB :=
  { db with tasks := db.tasks ++ [⟨db.nextId, uid, content, false⟩],
            nextId := db.nextId + 1 }

/-- Embeds `get_unsent_tasks` (src/database.py lines 139-144): SELECT rows of
this user with `is_digest_sent = 0`. -/
def get_unsent_tasks (db : DB) (uid : String) : List TaskRow :=
  db.tasks.filter (fun t => t.user_id == uid && !t.is_digest_sent)

/-- Embeds `mark_tasks_sent` (src/database.py lines 146-158): set
`is_digest_sent = 1` on every task whose id is in the list. -/
def mark_tasks_sent (db : DB) (ids : List Nat) : DB :=
  { db with tasks := db.tasks.map (fun t =>
      if t.id ∈ ids then { t with is_digest_sent := true } else t) }

/-- Python str() of an optional string, as applied by the DB helpers
(str(None) = "None"). -/
def pyStr : Option String → String
  | some s => s
  | none => "None"

/-- Embeds `get_user_by_stripe_id` (src/database.py lines 166-171): SELECT
the first row whose stored stripe_customer_id equals the given value. -/
def get_user_by_stripe_id (db : DB) (customer : Option String) : Option Account :=
  db.users.find? (fun u => u.stripe_customer_id == some (pyStr customer))

/-- Python truthiness of an optional bool JSON field. -/
def truthyBool : Option Bool → Bool
  | some b => b
  | none => false

/-- Python truthiness of an optional integer timestamp field: None and 0 are
falsy. -/
def truthyTs : Option Nat → Bool
  | some t => decide (t ≠ 0)
  | none => false

/-- Python truthiness of an optional string field: None and "" are falsy. -/
def truthyStr : Option String → Bool
  | some s => decide (s ≠ "")
  | none => false

/-- Two-digit zero padding, as produced by strftime %H/%M/%m/%d. -/
def pad2 (n : Nat) : String :=
  if n < 10 then "0" ++ toString n else toString n

/-- strftime("%H:%M") applied to a time of day given in minutes. -/
def fmtHHMM (minutesOfDay : Nat) : String :=
  pad2 (minutesOfDay / 60) ++ ":" ++ pad2 (minutesOfDay % 60)

/-- Civil date from a count of days since 1970-01-01 (proleptic Gregorian),
the arithmetic behind datetime date formatting.  Returns (year, month, day). -/
def civilFromDays (days : Nat) : Nat × Nat × Nat :=
  let z := days + 719468
  let era := z / 146097
  let doe := z % 146097
  let yoe := (doe - doe / 1460 + doe / 36524 - doe / 146096) / 365
  let y := yoe + era * 400
  let doy := doe - (365 * yoe + yoe / 4 - yoe / 100)
  let mp := (5 * doy + 2) / 153
  let d := doy - (153 * mp + 2) / 5 + 1
  let m := if mp < 10 then mp + 3 else mp - 9
  (if m ≤ 2 then y + 1 else y, m, d)

/-- Embeds `datetime.fromtimestamp(ts).strftime("%Y-%m-%d")` as used at
src/server.py line 222 (the server clock is modelled as UTC). -/
def strftimeDate (ts : Nat) : String :=
  let ymd := civilFromDays (ts / 86400)
  toString ymd.1 ++ "-" ++ pad2 ymd.2.1 ++ "-" ++ pad2 ymd.2.2

/-- Modelled behavior of the external pytz library, restricted to the fixed
offset zones the specification exercises: pytz.timezone either resolves a
valid IANA name to its UTC offset (in minutes; Asia/Singapore is UTC+8 with
no daylight saving) or raises UnknownTimeZoneError, modelled as `none`. -/
def pytzOffsetMinutes (tz : String) : Option Int :=
  if tz = "UTC" then some 0
  else if tz = "Asia/Singapore" then some 480
  else if tz = "Asia/Tokyo" then some 540
  else none

/-- Local wall-clock HH:MM string for a UTC instant (given in minutes since
the epoch) shifted by a zone offset, as produced by
`utc_now.astimezone(user_tz).strftime("%H:%M")` (src/bot.py lines 473-476). -/
def localHHMM (utcEpochMinutes offsetMinutes : Int) : String :=
  fmtHHMM ((utcEpochMinutes + offsetMinutes).emod 1440).toNat

/-- The fields of a customer.subscription.updated Stripe event that the
webhook reads (src/server.py lines 183-209).  `previous_attributes` is
modelled by its key set: the handler only tests key membership. -/
structure SubUpdate where
  customer : Option String
  cancel_at_period_end : Option Bool
  cancel_at : Option Nat
  current_period_end : Option Nat
  previous_attributes : List String
deriving DecidableEq, Repr

/-- The three Stripe event shapes the webhook dispatches on
(src/server.py lines 135, 163, 183). -/
inductive BillingEvent where
  | checkoutCompleted (client_reference_id : Option String) (customer : Option String)
  | subscriptionDeleted (customer : Option String)
  | subscriptionUpdated (e : SubUpdate)
deriving DecidableEq, Repr

/-- Embeds `is_cancelling = cancel_at_period_end or cancel_at`
(src/server.py line 191). -/
def is_cancelling (e : SubUpdate) : Bool :=
  truthyBool e.cancel_at_period_end || truthyTs e.cancel_at

/-- Embeds the `should_notify` computation of src/server.py lines 202-209:
notify only when cancelling now and the specific field that became true is a
key of the update diff. -/
def should_notify (e : SubUpdate) : Bool :=
  if is_cancelling e then
    if "cancel_at_period_end" ∈ e.previous_attributes ∧ truthyBool e.cancel_at_period_end then
      true
    else if "cancel_at" ∈ e.previous_attributes ∧ truthyTs e.cancel_at then
      true
    else false
  else false

/-- Embeds the end-date selection of src/server.py lines 215-222: start from
current_period_end, prefer a truthy cancel_at, format a truthy result as a
calendar date, otherwise fall back to a fixed phrase. -/
def end_date_of (e : SubUpdate) : String :=
  let end_ts : Option Nat :=
    if truthyTs e.cancel_at then e.cancel_at else e.current_period_end
  if truthyTs end_ts then strftimeDate (end_ts.getD 0)
  else "the end of the billing period"

/-- Message sent on checkout.session.completed (src/server.py lines 150-157). -/
def proActivatedMsg : String :=
  "🎉 *Congratulations!*\n\n" ++
  "Your *Pro Plan* is active.\n" ++
  "✅ 300 Minutes/month\n" ++
  "✅ Daily Digest at 6 PM\n" ++
  "✅ Todoist & Notion Sync\n\n" ++
  "Use `/settings` to configure your features!"

/-- Message sent on customer.subscription.deleted (src/server.py lines 172-177). -/
def subEndedMsg : String :=
  "📉 *Subscription Ended*\n\n" ++
  "Your subscription has expired or was cancelled.\n" ++
  "You have been downgraded to the *Free Tier* (5 mins/mo).\n" ++
  "Use `/managesub` to resubscribe at any time."

/-- Cancellation-scheduled message as a function of the computed end date
(src/server.py lines 224-228). -/
def cancellationMsg (end_date : String) : String :=
  "⚠️ *Subscription Cancellation Scheduled*\n\n" ++
  "Your access will remain Pro until " ++ end_date ++ ".\n" ++
  "After that, you will be downgraded to the Free Tier."

/-- Embeds the `/webhook` Flask handler (src/server.py lines 112-233) after
signature verification, dispatching on the event type.  The returned list
collects the `notify_user` calls as (chat id, message) pairs. -/
def webhook (db : DB) (ev : BillingEvent) : DB × List (String × String) :=
  match ev with
  | .checkoutCompleted client_reference_id customer =>
    if truthyStr client_reference_id then
      let uid := pyStr client_reference_id
      (applyUpdate db uid (fun u =>
        { u with plan_tier := "pro", stripe_customer_id := customer }),
       [(uid, proActivatedMsg)])
    else (db, [])
  | .subscriptionDeleted customer =>
    match get_user_by_stripe_id db customer with
    | some user =>
      (applyUpdate db user.user_id (fun u => { u with plan_tier := "free" }),
       [(user.user_id, subEndedMsg)])
    | none => (db, [])
  | .subscriptionUpdated e =>
    if should_notify e then
      match get_user_by_stripe_id db e.customer with
      | some user => (db, [(user.user_id, cancellationMsg (end_date_of e))])
      | none => (db, [])
    else (db, [])

/-- Numeric value of a decimal digit character. -/
def digitVal (c : Char) : Nat := c.toNat - 48

/-- Minute part of strptime("%H:%M"): the regex [0-5]\d|\d against the rest
of the string, which must then be fully consumed. -/
def parseMinPart (h : Nat) : List Char → Option (Nat × Nat)
  | [a] => if a.isDigit then some (h, digitVal a) else none
  | [a, b] =>
    if a.isDigit && b.isDigit && decide (digitVal a ≤ 5) then
      some (h, 10 * digitVal a + digitVal b)
    else none
  | _ => none

/-- Embeds `datetime.strptime(time_str, "%H:%M")` (src/bot.py line 333):
the hour is 2[0-3]|[0-1]\d|\d, then a literal colon, then the minute, and
any unconverted trailing text is an error.  Note zero padding is NOT
required: "7:5" parses. -/
def parseHM (s : String) : Option (Nat × Nat) :=
  match s.data with
  | a :: ':' :: rest =>
    if a.isDigit then parseMinPart (digitVal a) rest else none
  | a :: b :: ':' :: rest =>
    if a.isDigit && b.isDigit && decide (10 * digitVal a + digitVal b ≤ 23) then
      parseMinPart (10 * digitVal a + digitVal b) rest
    else none
  | _ => none

/-- The digest-time format the specification words describe: a 24-hour
HH:MM string with two-digit zero-padded hour 00-23 and minute 00-59. -/
def specHHMMFormat (s : String) : Bool :=
  match s.data with
  | [a, b, c, d, e] =>
    a.isDigit && b.isDigit && decide (c = ':') && d.isDigit && e.isDigit &&
    decide (10 * digitVal a + digitVal b ≤ 23) &&
    decide (10 * digitVal d + digitVal e ≤ 59)
  | _ => false

/-- Embeds `set_digest` (src/bot.py lines 329-337).  The argument is
`context.args[0] if context.args else None`; strptime of None raises, any
parse failure is caught, and only a successful parse stores the string.
The Bool is true exactly on the success reply. -/
def set_digest (db : DB) (uid : String) (arg : Option String) : DB × Bool :=
  match arg with
  | none => (db, false)
  | some time_str =>
    if (parseHM time_str).isSome then
      (applyUpdate db uid (fun u => { u with digest_time := time_str }), true)
    else (db, false)

/-- Embeds `set_timezone` (src/bot.py lines 339-351): a missing argument is
a usage reply, pytz.timezone validates the name, and only a valid name is
stored.  The Bool is true exactly on the success reply. -/
def set_timezone (db : DB) (uid : String) (arg : Option String) : DB × Bool :=
  match arg with
  | none => (db, false)
  | some tz_str =>
    if (pytzOffsetMinutes tz_str).isSome then
      (applyUpdate db uid (fun u => { u with timezone := tz_str }), true)
    else (db, false)

/-- Outcome of the Gemini transcription step (src/bot.py lines 394-404):
either the call raises, or it returns response.text (possibly empty, which
is falsy in Python). -/
inductive Transcript where
  | raised
  | text (s : String)
deriving DecidableEq, Repr

/-- The user-visible outcome of `handle_voice`: which reply branch ran. -/
inductive VoiceOutcome where
  | limitReached
  | tooLong
  | processingError
  | noTasks
  | success
deriving DecidableEq, Repr

/-- True on the two quota-rejection replies of `handle_voice`. -/
def isRejected : VoiceOutcome → Bool
  | .limitReached => true
  | .tooLong => true
  | _ => false

/-- Quota constant FREE_TIER_MINUTES = 5.0 (src/bot.py line 47). -/
def FREE_TIER_MINUTES : ℚ := 5

/-- Quota constant PRO_TIER_MINUTES = 300.0 (src/bot.py line 48). -/
def PRO_TIER_MINUTES : ℚ := 300

/-- Embeds `handle_voice` (src/bot.py lines 353-452).  External effects are
parameters: `durationSeconds` is the Telegram voice metadata,
`downloadOk` is whether the file download and Gemini upload succeed,
`tr` is the transcription outcome, and `replyOk` is whether the final
Telegram replies succeed (a failure there is caught by the same
except-block).  The Todoist/Notion syncs swallow their own exceptions and
do not touch the store, so they are not modelled. -/
def handle_voice (db : DB) (uid : String) (durationSeconds : Nat)
    (downloadOk : Bool) (tr : Transcript) (replyOk : Bool) :
    VoiceOutcome × DB :=
  let user := (check_user_status db uid).1
  let db1 := (check_user_status db uid).2
  let plan := user.plan_tier
  let used := user.minutes_used
  let limit := if plan = "pro" then PRO_TIER_MINUTES else FREE_TIER_MINUTES
  if used ≥ limit then (.limitReached, db1)
  else
    let duration_mins : ℚ := (durationSeconds : ℚ) / 60
    if used + duration_mins > limit then (.tooLong, db1)
    else if !downloadOk then (.processingError, db1)
    else
      match tr with
      | .raised => (.processingError, db1)
      | .text s =>
        if s ≠ "" then
          let new_total := used + duration_mins
          let db2 := applyUpdate db1 uid (fun u => { u with minutes_used := new_total })
          let db3 := add_task db2 uid s
          (if replyOk then .success else .processingError, db3)
        else (.noTasks, db1)

/-- Digest message body (src/bot.py lines 483-487): header, a truncated
preview line per task, and a footer. -/
def digestBody (tasks : List TaskRow) : String :=
  (tasks.foldl (fun acc t => acc ++ "• " ++ t.task_content.take 100 ++ "...\n")
    "🌅 *Your Daily Digest*\n\n") ++
  "\nCheck your task manager for details!"

/-- Whether the digest fires for this user at this UTC instant
(src/bot.py lines 468-479): resolve the timezone (empty or missing falls
back to UTC; an unknown zone raises inside the per-user try and the user is
skipped), convert, format HH:MM, and compare for string equality with the
stored digest_time. -/
def digestDue (utcEpochMinutes : Int) (user : Account) : Bool :=
  match pytzOffsetMinutes (if user.timezone = "" then "UTC" else user.timezone) with
  | none => false
  | some off => decide (localHHMM utcEpochMinutes off = user.digest_time)

/-- Per-user body of the digest loop (src/bot.py lines 466-497), folded over
the state (store, messages sent so far).  `sendOk` tells whether the
Telegram send to a given chat id succeeds; on failure the tasks are NOT
marked sent. -/
def sweepUser (sendOk : String → Bool) (utcEpochMinutes : Int)
    (st : DB × List (String × String)) (user : Account) :
    DB × List (String × String) :=
  if digestDue utcEpochMinutes user then
    let tasks := get_unsent_tasks st.1 user.user_id
    if tasks = [] then st
    else if sendOk user.user_id then
      (mark_tasks_sent st.1 (tasks.map TaskRow.id),
       st.2 ++ [(user.user_id, digestBody tasks)])
    else st
  else st

/-- Embeds `daily_digest_job` (src/bot.py lines 455-497): one sweep over
the `get_all_users()` snapshot at a single UTC reference instant. -/
def daily_digest_job (db : DB) (utcEpochMinutes : Int)
    (sendOk : String → Bool) : DB × List (String × String) :=
  db.users.foldl (sweepUser sendOk utcEpochMinutes) (db, [])

/-! Concrete stores and events used by the closed theorems below. -/

/-- Store with a single free-tier account "alice". -/
def dbAlice : DB := ⟨[⟨"alice", "free", 0, none, "18:00", "UTC"⟩], [], 1⟩

/-- Pro account linked to the billing customer "cus_1". -/
def carolAcct : Account := ⟨"carol", "pro", 0, some "cus_1", "18:00", "UTC"⟩

/-- Store holding only `carolAcct`. -/
def dbStripe : DB := ⟨[carolAcct], [], 1⟩

/-- Subscription update: cancel_at_period_end flips to true, diff records
the flip, and only current_period_end carries a date. -/
def evFlip : SubUpdate :=
  ⟨some "cus_1", some true, none, some 1705312800, ["cancel_at_period_end"]⟩

/-- Subscription update like `evFlip` but with a present-and-zero
cancel_at timestamp next to a nonzero current_period_end. -/
def evZeroCancelAt : SubUpdate :=
  ⟨some "cus_1", some true, some 0, some 1700000000, ["cancel_at_period_end"]⟩

/-! Claim C3: update on an absent account. -/

/-- Claim C3, counterexample: with "bob" absent from the store, update_user
returns plain success with the store unchanged — it does not fail with a
NotFound error, it silently succeeds as a no-op (and creates nothing). -/
theorem c3_counterexample :
    update_user dbAlice "bob" (fun u => { u with plan_tier := "pro" }) =
      Except.ok dbAlice ∧
    "bob" ∉ dbAlice.users.map Account.user_id :=
  ⟨rfl, by decide⟩

/-- Claim C3 (amended): for every account id absent from the store, update
never auto-creates the account, but it does not fail with NotFound either:
the UPDATE succeeds silently and leaves the store unchanged. -/
theorem c3_update_absent_silent_noop (db : DB) (uid : String)
    (f : Account → Account) (h : uid ∉ db.users.map Account.user_id) :
    update_user db uid f = Except.ok db := by
  unfold update_user applyUpdate
  have hmap : db.users.map (fun u => if u.user_id = uid then f u else u) = db.users := by
    have := List.map_congr_left (l := db.users)
      (f := fun u => if u.user_id = uid then f u else u) (g := id)
      (by
        intro a ha
        have : a.user_id ≠ uid := fun heq => h (heq ▸ List.mem_map_of_mem Account.user_id ha)
        simp [this])
    simpa using this
  simp [hmap]

/-- Claim C3, witness: applying the amended theorem to a concrete store. -/
theorem c3_witness :
    update_user dbAlice "dave" (fun u => { u with plan_tier := "pro" }) =
      Except.ok dbAlice :=
  c3_update_absent_silent_noop dbAlice "dave" _ (by decide)

/-! Claim C8: validation of digest time and timezone settings. -/

/-- Claim C8, counterexample: the string "7:5" does not match the 24-hour
HH:MM format the claim requires, yet set_digest accepts it (strptime with
%H:%M tolerates unpadded one-digit fields). -/
theorem c8_counterexample :
    (set_digest dbAlice "alice" (some "7:5")).2 = true ∧
    specHHMMFormat "7:5" = false :=
  ⟨rfl, rfl⟩

/-- Claim C8 (amended): a set-digest-time command is accepted iff the string
parses under strptime %H:%M (one- or two-digit hour up to 23, colon, one- or
two-digit minute up to 59 — zero padding not required); a set-timezone
command is accepted iff pytz resolves the zone name; on rejection the store
(hence the stored digest_time and timezone) is unchanged. -/
theorem c8_settings_validation (db : DB) (uid s : String) :
    ((set_digest db uid (some s)).2 = true ↔ (parseHM s).isSome = true) ∧
    ((parseHM s).isSome = false → (set_digest db uid (some s)).1 = db) ∧
    ((set_timezone db uid (some s)).2 = true ↔ (pytzOffsetMinutes s).isSome = true) ∧
    ((pytzOffsetMinutes s).isSome = false → (set_timezone db uid (some s)).1 = db) := by
  unfold set_digest set_timezone
  by_cases h1 : (parseHM s).isSome <;> by_cases h2 : (pytzOffsetMinutes s).isSome <;>
    simp [h1, h2]

/-- Claim C8, witness: the rejected inputs "25:99" and "Not/AZone" leave a
concrete store unchanged, via the amended theorem. -/
theorem c8_witness :
    (set_digest dbAlice "alice" (some "25:99")).1 = dbAlice ∧
    (set_timezone dbAlice "alice" (some "Not/AZone")).1 = dbAlice :=
  ⟨(c8_settings_validation dbAlice "alice" "25:99").2.1 rfl,
   (c8_settings_validation dbAlice "alice" "Not/AZone").2.2.2 rfl⟩

/-! Claim C1: diff-suppressed cancellation notification. -/

/-- The notify decision equals: cancelling now, and the specific field that
became true is a key of the update diff. -/
theorem should_notify_iff (e : SubUpdate) :
    should_notify e = true ↔
      ((truthyBool e.cancel_at_period_end = true ∨ truthyTs e.cancel_at = true) ∧
       ((truthyBool e.cancel_at_period_end = true ∧
           "cancel_at_period_end" ∈ e.previous_attributes) ∨
        (truthyTs e.cancel_at = true ∧ "cancel_at" ∈ e.previous_attributes))) := by
  unfold should_notify is_cancelling
  by_cases h1 : truthyBool e.cancel_at_period_end = true <;>
    by_cases h2 : truthyTs e.cancel_at = true <;>
      by_cases h3 : "cancel_at_period_end" ∈ e.previous_attributes <;>
        by_cases h4 : "cancel_at" ∈ e.previous_attributes <;>
          simp_all

/-- Claim C1: for a SubscriptionUpdated event whose customer matches an
account, exactly one cancellation-scheduled notification fires iff the
subscription is now cancelling (flag truthy or cancel_at truthy) and the
specific field that became true is present as a key in
previous_attributes; otherwise none fires.  In particular an empty diff
fires nothing even with cancel_at_period_end true, and a diff containing
the cancel_at_period_end key with the flag now true fires exactly one. -/
theorem c1_cancellation_notification (db : DB) (e : SubUpdate) (u : Account)
    (hu : get_user_by_stripe_id db e.customer = some u) :
    (webhook db (.subscriptionUpdated e)).2.length =
      (if (truthyBool e.cancel_at_period_end = true ∨ truthyTs e.cancel_at = true) ∧
          ((truthyBool e.cancel_at_period_end = true ∧
              "cancel_at_period_end" ∈ e.previous_attributes) ∨
           (truthyTs e.cancel_at = true ∧ "cancel_at" ∈ e.previous_attributes))
       then 1 else 0) := by
  by_cases h : should_notify e = true
  · rw [if_pos ((should_notify_iff e).mp h)]
    simp [webhook, h, hu]
  · rw [if_neg (fun hc => h ((should_notify_iff e).mpr hc))]
    simp [webhook, h]

/-- Claim C1, witness: with previous_attributes containing the
cancel_at_period_end key and the flag now true, exactly one notification
fires for the matched account. -/
theorem c1_witness :
    (webhook dbStripe (BillingEvent.subscriptionUpdated evFlip)).2.length = 1 :=
  (c1_cancellation_notification dbStripe evFlip carolAcct rfl).trans (by decide)

/-! Claim C7: idempotence of CheckoutCompleted. -/

/-- Claim C7: delivering the same CheckoutCompleted event (with a truthy
client reference) twice leaves the Account Store exactly as delivering it
once, and every account carrying that id ends with plan pro and the billing
customer reference stored — the transition sets absolute state. -/
theorem c7_checkout_idempotent (db : DB) (r : String) (customer : Option String)
    (hr : r ≠ "") :
    (webhook (webhook db (.checkoutCompleted (some r) customer)).1
        (.checkoutCompleted (some r) customer)).1 =
      (webhook db (.checkoutCompleted (some r) customer)).1 ∧
    ∀ u ∈ (webhook db (.checkoutCompleted (some r) customer)).1.users,
      u.user_id = r → u.plan_tier = "pro" ∧ u.stripe_customer_id = customer := by
  have htr : truthyStr (some r) = true := by simp [truthyStr, hr]
  constructor
  · simp only [webhook, htr, if_pos, pyStr, applyUpdate, List.map_map]
    refine congrArg (fun l => DB.mk l db.tasks db.nextId) ?_
    apply List.map_congr_left
    intro a _
    by_cases h : a.user_id = r <;> simp [h, Function.comp]
  · intro u hu hid
    simp only [webhook, htr, if_pos, pyStr, applyUpdate] at hu
    rcases List.mem_map.mp hu with ⟨a, _, ha⟩
    by_cases h : a.user_id = r
    · rw [if_pos h] at ha
      exact ⟨by rw [← ha], by rw [← ha]⟩
    · rw [if_neg h] at ha
      exact absurd (ha ▸ hid) h

/-- Claim C7, witness: re-delivering a concrete checkout event is a state
no-op on a concrete store. -/
theorem c7_witness :
    (webhook (webhook dbAlice (.checkoutCompleted (some "alice") (some "cus_9"))).1
        (.checkoutCompleted (some "alice") (some "cus_9"))).1 =
      (webhook dbAlice (.checkoutCompleted (some "alice") (some "cus_9"))).1 :=
  (c7_checkout_idempotent dbAlice "alice" (some "cus_9") (by decide)).1

/-! Claim C9: end-date selection for the cancellation notice. -/

/-- Claim C9, counterexample: with cancel_at present but equal to 0 (a
falsy timestamp) the notice is dated from current_period_end, not from the
present cancel_at — the code tests Python truthiness, not presence. -/
theorem c9_counterexample :
    (webhook dbStripe (BillingEvent.subscriptionUpdated evZeroCancelAt)).2 =
      [("carol", cancellationMsg "2023-11-14")] ∧
    evZeroCancelAt.cancel_at.isSome = true ∧
    strftimeDate 0 = "1970-01-01" ∧
    cancellationMsg "2023-11-14" ≠ cancellationMsg (strftimeDate 0) :=
  ⟨rfl, rfl, rfl, by decide⟩

/-- Claim C9 (amended): whenever a cancellation notification fires, the
notice is the cancellation message built from the computed end date, and
that date is derived from cancel_at whenever cancel_at is present AND
nonzero, from current_period_end when cancel_at is absent or zero, with a
fixed fallback phrase when the chosen timestamp is itself absent or zero;
a chosen nonzero timestamp is formatted as a calendar date. -/
theorem c9_end_date_tiebreak (db : DB) (e : SubUpdate) (u : Account)
    (hu : get_user_by_stripe_id db e.customer = some u)
    (hn : should_notify e = true) :
    (webhook db (.subscriptionUpdated e)).2 =
      [(u.user_id, cancellationMsg (end_date_of e))] ∧
    (∀ t, e.cancel_at = some t → t ≠ 0 → end_date_of e = strftimeDate t) ∧
    (∀ c, e.cancel_at = none → e.current_period_end = some c → c ≠ 0 →
      end_date_of e = strftimeDate c) ∧
    (∀ c, e.cancel_at = some 0 → e.current_period_end = some c → c ≠ 0 →
      end_date_of e = strftimeDate c) ∧
    (e.cancel_at = none → e.current_period_end = none →
      end_date_of e = "the end of the billing period") := by
  refine ⟨by simp [webhook, hn, hu], ?_, ?_, ?_, ?_⟩
  · intro t hca ht
    simp [end_date_of, truthyTs, hca, ht]
  · intro c hca hcp hc
    simp [end_date_of, truthyTs, hca, hcp, hc]
  · intro c hca hcp hc
    simp [end_date_of, truthyTs, hca, hcp, hc]
  · intro hca hcp
    simp [end_date_of, truthyTs, hca, hcp]

/-- Claim C9, witness: on a concrete event with only current_period_end
set, the notice carries that date. -/
theorem c9_witness :
    (webhook dbStripe (BillingEvent.subscriptionUpdated evFlip)).2 =
      [("carol", cancellationMsg (end_date_of evFlip))] :=
  (c9_end_date_tiebreak dbStripe evFlip carolAcct rfl rfl).1

/-! Claim C2 and Claim C10: the voice consumption path. -/

/-- The applicable quota (src/bot.py line 360): 300.0 for plan 'pro', 5.0
otherwise. -/
def voiceLimit (db : DB) (uid : String) : ℚ :=
  if (check_user_status db uid).1.plan_tier = "pro" then PRO_TIER_MINUTES
  else FREE_TIER_MINUTES

/-- Stored minutes of an account, read back from the store. -/
def accountMinutes (db : DB) (uid : String) : Option ℚ :=
  (db.users.find? (fun u => u.user_id == uid)).map Account.minutes_used

/-- Lookup after a matching UPDATE sees the rewritten row, provided the
update preserves the key. -/
theorem find?_update_list (l : List Account) (uid : String) (f : Account → Account)
    (hid : ∀ u, (f u).user_id = u.user_id) :
    (l.map (fun u => if u.user_id = uid then f u else u)).find?
        (fun u => u.user_id == uid) =
      (l.find? (fun u => u.user_id == uid)).map f := by
  induction l with
  | nil => rfl
  | cons a l ih =>
    by_cases ha : a.user_id = uid
    · simp [ha, hid]
    · simp [ha, ih]

/-- The row returned by check_user_status carries the requested id and is
found again in the store it returns. -/
theorem check_user_status_find (db : DB) (uid : String) :
    (check_user_status db uid).2.users.find? (fun u => u.user_id == uid) =
      some (check_user_status db uid).1 ∧
    (check_user_status db uid).1.user_id = uid := by
  unfold check_user_status
  rcases hf : db.users.find? (fun u => u.user_id == uid) with _ | u
  · simp [hf, defaultAccount]
  · have := List.find?_some hf
    simp_all

/-- The limit-reached early return (src/bot.py lines 362-368). -/
theorem handle_voice_limit (db : DB) (uid : String) (dur : Nat)
    (dOk rOk : Bool) (tr : Transcript)
    (h : (check_user_status db uid).1.minutes_used ≥ voiceLimit db uid) :
    handle_voice db uid dur dOk tr rOk =
      (.limitReached, (check_user_status db uid).2) := by
  unfold voiceLimit at h
  simp only [handle_voice]
  rw [if_pos h]

/-- The too-long early return (src/bot.py lines 382-384). -/
theorem handle_voice_tooLong (db : DB) (uid : String) (dur : Nat)
    (dOk rOk : Bool) (tr : Transcript)
    (h1 : ¬ (check_user_status db uid).1.minutes_used ≥ voiceLimit db uid)
    (h2 : (check_user_status db uid).1.minutes_used + (dur : ℚ) / 60 >
      voiceLimit db uid) :
    handle_voice db uid dur dOk tr rOk =
      (.tooLong, (check_user_status db uid).2) := by
  unfold voiceLimit at h1 h2
  simp only [handle_voice]
  rw [if_neg h1, if_pos h2]

/-- The three failure paths that reach the except-block before any write,
plus the empty-transcript path: the store is left as check_user_status made
it. -/
theorem handle_voice_no_write (db : DB) (uid : String) (dur : Nat)
    (dOk rOk : Bool) (tr : Transcript)
    (h1 : ¬ (check_user_status db uid).1.minutes_used ≥ voiceLimit db uid)
    (h2 : ¬ (check_user_status db uid).1.minutes_used + (dur : ℚ) / 60 >
      voiceLimit db uid)
    (h3 : dOk = false ∨ tr = .raised ∨ tr = .text "") :
    (handle_voice db uid dur dOk tr rOk).2 = (check_user_status db uid).2 := by
  unfold voiceLimit at h1 h2
  simp only [handle_voice]
  rw [if_neg h1, if_neg h2]
  rcases h3 with h3 | h3 | h3
  · subst h3
    simp
  · subst h3
    cases dOk <;> simp
  · subst h3
    cases dOk <;> simp

/-- The accepted path (src/bot.py lines 404-410): non-empty transcription
commits the usage update and the task insert, whatever the later replies
do. -/
theorem handle_voice_accept (db : DB) (uid : String) (dur : Nat)
    (rOk : Bool) (s : String)
    (h1 : ¬ (check_user_status db uid).1.minutes_used ≥ voiceLimit db uid)
    (h2 : ¬ (check_user_status db uid).1.minutes_used + (dur : ℚ) / 60 >
      voiceLimit db uid)
    (hs : s ≠ "") :
    handle_voice db uid dur true (.text s) rOk =
      (if rOk then .success else .processingError,
       add_task (applyUpdate (check_user_status db uid).2 uid
         (fun u => { u with minutes_used :=
           (check_user_status db uid).1.minutes_used + (dur : ℚ) / 60 })) uid s) := by
  unfold voiceLimit at h1 h2
  simp only [handle_voice]
  rw [if_neg h1, if_neg h2]
  simp [hs]

/-- Also needed for Claim C2: an accepted request never yields a rejection
reply. -/
theorem handle_voice_not_rejected (db : DB) (uid : String) (dur : Nat)
    (dOk rOk : Bool) (tr : Transcript)
    (h1 : ¬ (check_user_status db uid).1.minutes_used ≥ voiceLimit db uid)
    (h2 : ¬ (check_user_status db uid).1.minutes_used + (dur : ℚ) / 60 >
      voiceLimit db uid) :
    isRejected (handle_voice db uid dur dOk tr rOk).1 = false := by
  unfold voiceLimit at h1 h2
  simp only [handle_voice]
  rw [if_neg h1, if_neg h2]
  cases dOk
  · simp [isRejected]
  · rcases tr with _ | s
    · simp [isRejected]
    · by_cases hs : s = ""
      · simp [hs, isRejected]
      · cases rOk <;> simp [hs, isRejected]

/-- Store with one free account that has consumed exactly its full quota. -/
def dbMaxed : DB := ⟨[⟨"maxed", "free", 5, none, "18:00", "UTC"⟩], [], 1⟩

/-- Claim C2, counterexample: at usage exactly equal to the limit and a
proposed consumption of 0 minutes, the request is rejected (by the
`used >= limit` pre-check) although current + proposed > limit is false, so
rejection is not equivalent to `current + proposed > limit`. -/
theorem c2_counterexample :
    isRejected (handle_voice dbMaxed "maxed" 0 true (.text "hi") true).1 = true ∧
    (check_user_status dbMaxed "maxed").1.minutes_used = 5 ∧
    voiceLimit dbMaxed "maxed" = FREE_TIER_MINUTES ∧
    ¬ ((5 : ℚ) + ((0 : Nat) : ℚ) / 60 > FREE_TIER_MINUTES) :=
  ⟨rfl, rfl, rfl, by norm_num [FREE_TIER_MINUTES]⟩

/-- Claim C2 (amended): a consumption of p = dur/60 minutes is rejected iff
usage ≥ limit already (the pre-check, which also fires at usage = limit
with p = 0) or usage + p > limit, with limit 5.0 for FREE and 300.0 for
PRO; a rejected request leaves the store exactly as the lazy account
creation made it; and when the quota check passes and transcription
returns non-empty text, usage becomes exactly usage + p, hence it is
non-decreasing under accepted requests. -/
theorem c2_quota_decision (db : DB) (uid : String) (dur : Nat)
    (dOk rOk : Bool) (tr : Transcript) :
    (isRejected (handle_voice db uid dur dOk tr rOk).1 = true ↔
      ((check_user_status db uid).1.minutes_used ≥ voiceLimit db uid ∨
       (check_user_status db uid).1.minutes_used + (dur : ℚ) / 60 >
         voiceLimit db uid)) ∧
    (isRejected (handle_voice db uid dur dOk tr rOk).1 = true →
      (handle_voice db uid dur dOk tr rOk).2 = (check_user_status db uid).2) ∧
    (∀ s, tr = .text s → s ≠ "" → dOk = true →
      ¬ ((check_user_status db uid).1.minutes_used ≥ voiceLimit db uid ∨
         (check_user_status db uid).1.minutes_used + (dur : ℚ) / 60 >
           voiceLimit db uid) →
      accountMinutes (handle_voice db uid dur dOk tr rOk).2 uid =
        some ((check_user_status db uid).1.minutes_used + (dur : ℚ) / 60) ∧
      (check_user_status db uid).1.minutes_used ≤
        (check_user_status db uid).1.minutes_used + (dur : ℚ) / 60) := by
  by_cases h1 : (check_user_status db uid).1.minutes_used ≥ voiceLimit db uid
  · rw [handle_voice_limit db uid dur dOk rOk tr h1]
    exact ⟨by simp [isRejected, h1], fun _ => rfl,
      fun s _ _ _ hno => absurd (Or.inl h1) hno⟩
  · by_cases h2 : (check_user_status db uid).1.minutes_used + (dur : ℚ) / 60 >
        voiceLimit db uid
    · rw [handle_voice_tooLong db uid dur dOk rOk tr h1 h2]
      exact ⟨by simp [isRejected, h2], fun _ => rfl,
        fun s _ _ _ hno => absurd (Or.inr h2) hno⟩
    · have hnr := handle_voice_not_rejected db uid dur dOk rOk tr h1 h2
      refine ⟨by simp [hnr, h1, h2], by simp [hnr], ?_⟩
      intro s hts hs hdl _
      subst hts
      subst hdl
      rw [handle_voice_accept db uid dur rOk s h1 h2 hs]
      constructor
      · show accountMinutes (add_task (applyUpdate (check_user_status db uid).2 uid _) uid s) uid = _
        unfold accountMinutes add_task applyUpdate
        simp only []
        rw [find?_update_list (check_user_status db uid).2.users uid
          (fun u => { u with minutes_used :=
            (check_user_status db uid).1.minutes_used + (dur : ℚ) / 60 })
          (fun u => rfl), (check_user_status_find db uid).1]
        rfl
      · exact le_add_of_nonneg_right (by positivity)

/-- Usage of the fresh account "alice" reads back as zero. -/
theorem aliceUsedZero : (check_user_status dbAlice "alice").1.minutes_used = 0 := rfl

/-- The fresh free account "alice" is limited to 5 minutes. -/
theorem aliceLimitFive : voiceLimit dbAlice "alice" = 5 := rfl

/-- A fresh account is not over its limit. -/
theorem aliceNotOver :
    ¬ (check_user_status dbAlice "alice").1.minutes_used ≥ voiceLimit dbAlice "alice" := by
  rw [aliceUsedZero, aliceLimitFive]; norm_num

/-- A one-minute note fits the fresh free quota. -/
theorem aliceNotTooLong :
    ¬ (check_user_status dbAlice "alice").1.minutes_used + ((60 : Nat) : ℚ) / 60 >
      voiceLimit dbAlice "alice" := by
  rw [aliceUsedZero, aliceLimitFive]; norm_num

/-- Claim C2, witness: a one-minute accepted note on a fresh account sets
the stored usage to exactly 0 + 60/60 minutes. -/
theorem c2_witness :
    accountMinutes (handle_voice dbAlice "alice" 60 true (.text "task") true).2 "alice" =
      some ((check_user_status dbAlice "alice").1.minutes_used + ((60 : Nat) : ℚ) / 60) :=
  ((c2_quota_decision dbAlice "alice" 60 true true (.text "task")).2.2 "task" rfl
    (by decide) rfl (not_or.mpr ⟨aliceNotOver, aliceNotTooLong⟩)).1

/-- Claim C10, counterexample: the transcription returned non-empty text
and a later processing step (the final Telegram reply) raised — the user
sees the error reply — yet the usage charge and the stored pending item
remain: the claim that any raising step leaves both unchanged is false. -/
theorem c10_counterexample :
    (handle_voice dbAlice "alice" 60 true (.text "task") false).1 =
      VoiceOutcome.processingError ∧
    accountMinutes dbAlice "alice" = some 0 ∧
    accountMinutes (handle_voice dbAlice "alice" 60 true (.text "task") false).2
      "alice" = some ((0 : ℚ) + ((60 : Nat) : ℚ) / 60) ∧
    (0 : ℚ) + ((60 : Nat) : ℚ) / 60 ≠ 0 ∧
    (handle_voice dbAlice "alice" 60 true (.text "task") false).2.tasks.length =
      dbAlice.tasks.length + 1 := by
  have hacc := handle_voice_accept dbAlice "alice" 60 false "task"
    aliceNotOver aliceNotTooLong (by decide)
  refine ⟨by rw [hacc]; rfl, rfl, ?_, by norm_num, by rw [hacc]; rfl⟩
  rw [hacc]
  rfl

/-- Claim C10 (amended): once the quota check passes, the usage charge and
the pending item are committed iff the transcription step succeeds with
non-empty text: a failed download, a raising transcription call or empty
text leave the store untouched, while after non-empty text the charge and
the insert stand even when a later step (the final replies) raises. -/
theorem c10_charge_iff_transcript (db : DB) (uid : String) (dur : Nat)
    (rOk : Bool) (tr : Transcript) (dOk : Bool)
    (h1 : ¬ (check_user_status db uid).1.minutes_used ≥ voiceLimit db uid)
    (h2 : ¬ (check_user_status db uid).1.minutes_used + (dur : ℚ) / 60 >
      voiceLimit db uid) :
    ((dOk = false ∨ tr = .raised ∨ tr = .text "") →
      (handle_voice db uid dur dOk tr rOk).2 = (check_user_status db uid).2) ∧
    (∀ s, s ≠ "" →
      (handle_voice db uid dur true (.text s) rOk).2 =
        add_task (applyUpdate (check_user_status db uid).2 uid
          (fun u => { u with minutes_used :=
            (check_user_status db uid).1.minutes_used + (dur : ℚ) / 60 })) uid s) := by
  refine ⟨fun h3 => handle_voice_no_write db uid dur dOk rOk tr h1 h2 h3, ?_⟩
  intro s hs
  rw [handle_voice_accept db uid dur rOk s h1 h2 hs]

/-- Claim C10, witness: on a fresh account, empty text commits nothing,
while non-empty text commits the charge and the item even though the final
reply raises. -/
theorem c10_witness :
    (handle_voice dbAlice "alice" 60 true (.text "") true).2 =
      (check_user_status dbAlice "alice").2 ∧
    (handle_voice dbAlice "alice" 60 true (.text "note") false).2 =
      add_task (applyUpdate (check_user_status dbAlice "alice").2 "alice"
        (fun u => { u with minutes_used :=
          (check_user_status dbAlice "alice").1.minutes_used + ((60 : Nat) : ℚ) / 60 }))
        "alice" "note" :=
  ⟨(c10_charge_iff_transcript dbAlice "alice" 60 true (.text "") true
      aliceNotOver aliceNotTooLong).1 (Or.inr (Or.inr rfl)),
   (c10_charge_iff_transcript dbAlice "alice" 60 false (.text "note") true
      aliceNotOver aliceNotTooLong).2 "note" (by decide)⟩

/-! Claims C4, C5, C6: the digest sweep. -/

/-- Marking by id commutes with the unsent filter: the unsent rows of a
user after a mark are its unsent rows before it, minus the marked ids. -/
theorem filter_unsent_mark (l : List TaskRow) (ids : List Nat) (uid : String) :
    (l.map (fun t => if t.id ∈ ids then { t with is_digest_sent := true } else t)).filter
        (fun t => t.user_id == uid && !t.is_digest_sent) =
      (l.filter (fun t => t.user_id == uid && !t.is_digest_sent)).filter
        (fun t => decide (t.id ∉ ids)) := by
  induction l with
  | nil => rfl
  | cons t l ih =>
    by_cases hid : t.id ∈ ids <;>
      by_cases hu : (t.user_id == uid) = true <;>
        by_cases hs : t.is_digest_sent = true <;>
          simp [hid, hu, hs, List.filter_cons, ih]

/-- Same statement at the store level. -/
theorem get_unsent_tasks_mark (db : DB) (ids : List Nat) (uid : String) :
    get_unsent_tasks (mark_tasks_sent db ids) uid =
      (get_unsent_tasks db uid).filter (fun t => decide (t.id ∉ ids)) :=
  filter_unsent_mark db.tasks ids uid

/-- Marking exactly the fetched unsent ids of a user leaves that user with
no unsent rows. -/
theorem get_unsent_tasks_mark_self (db : DB) (uid : String) :
    get_unsent_tasks
        (mark_tasks_sent db ((get_unsent_tasks db uid).map TaskRow.id)) uid = [] := by
  rw [get_unsent_tasks_mark]
  refine List.filter_eq_nil_iff.mpr ?_
  intro t ht
  simp only [decide_eq_true_eq, Decidable.not_not]
  exact List.mem_map_of_mem TaskRow.id ht

/-- A user with no unsent rows still has none after any further marking. -/
theorem unsent_empty_mark (db : DB) (ids : List Nat) (uid : String)
    (h : get_unsent_tasks db uid = []) :
    get_unsent_tasks (mark_tasks_sent db ids) uid = [] := by
  rw [get_unsent_tasks_mark, h]
  rfl

/-- The sweep never touches the users table. -/
theorem sweepUser_users (s : String → Bool) (t : Int)
    (st : DB × List (String × String)) (u : Account) :
    (sweepUser s t st u).1.users = st.1.users := by
  unfold sweepUser
  by_cases hd : digestDue t u
  · by_cases he : get_unsent_tasks st.1 u.user_id = []
    · simp [hd, he]
    · by_cases hsend : s u.user_id = true <;> simp [hd, he, hsend, mark_tasks_sent]
  · simp [hd]

/-- A user whose local minute does not match is skipped. -/
theorem sweepUser_not_due (s : String → Bool) (t : Int)
    (st : DB × List (String × String)) (u : Account)
    (h : digestDue t u = false) : sweepUser s t st u = st := by
  simp [sweepUser, h]

/-- A user with no unsent rows produces no digest and no store change. -/
theorem sweepUser_no_tasks (s : String → Bool) (t : Int)
    (st : DB × List (String × String)) (u : Account)
    (h : get_unsent_tasks st.1 u.user_id = []) : sweepUser s t st u = st := by
  by_cases hd : digestDue t u <;> simp [sweepUser, hd, h]

/-- Each sweep step either keeps the store or marks some ids in it. -/
theorem sweepUser_db_cases (s : String → Bool) (t : Int)
    (st : DB × List (String × String)) (u : Account) :
    (sweepUser s t st u).1 = st.1 ∨
    ∃ ids, (sweepUser s t st u).1 = mark_tasks_sent st.1 ids := by
  unfold sweepUser
  by_cases hd : digestDue t u
  · by_cases he : get_unsent_tasks st.1 u.user_id = []
    · simp [hd, he]
    · by_cases hsend : s u.user_id = true
      · refine Or.inr ⟨(get_unsent_tasks st.1 u.user_id).map TaskRow.id, ?_⟩
        simp [hd, he, hsend]
      · simp [hd, he, hsend]
  · simp [hd]

/-- A user is calm in a store when its digest minute does not match or it
has nothing unsent: a sweep step on a calm user is a complete no-op. -/
def calmUser (t : Int) (d : DB) (u : Account) : Prop :=
  digestDue t u = false ∨ get_unsent_tasks d u.user_id = []

/-- Calmness survives marking. -/
theorem calmUser_mark (t : Int) (d : DB) (ids : List Nat) (u : Account)
    (h : calmUser t d u) : calmUser t (mark_tasks_sent d ids) u :=
  h.imp id (fun he => unsent_empty_mark d ids u.user_id he)

/-- A sweep step on a calm user changes nothing. -/
theorem sweepUser_calm (s : String → Bool) (t : Int)
    (st : DB × List (String × String)) (u : Account)
    (h : calmUser t st.1 u) : sweepUser s t st u = st := by
  rcases h with h | h
  · exact sweepUser_not_due s t st u h
  · exact sweepUser_no_tasks s t st u h

/-- Calmness of any user survives a sweep step on any user. -/
theorem calmUser_sweep (s : String → Bool) (t : Int)
    (st : DB × List (String × String)) (u v : Account)
    (h : calmUser t st.1 v) : calmUser t (sweepUser s t st u).1 v := by
  rcases sweepUser_db_cases s t st u with hc | ⟨ids, hc⟩ <;> rw [hc]
  · exact h
  · exact calmUser_mark t st.1 ids v h

/-- After its own sweep step with a successful send, a user is calm. -/
theorem sweepUser_makes_calm (s : String → Bool) (t : Int)
    (st : DB × List (String × String)) (u : Account)
    (hsend : s u.user_id = true) : calmUser t (sweepUser s t st u).1 u := by
  by_cases hd : digestDue t u
  · by_cases he : get_unsent_tasks st.1 u.user_id = []
    · rw [sweepUser_no_tasks s t st u he]
      exact Or.inr he
    · have hmark : (sweepUser s t st u).1 =
          mark_tasks_sent st.1 ((get_unsent_tasks st.1 u.user_id).map TaskRow.id) := by
        simp [sweepUser, hd, he, hsend]
      rw [hmark]
      exact Or.inr (get_unsent_tasks_mark_self st.1 u.user_id)
  · exact Or.inl (eq_false_of_ne_true hd)

/-- Calmness of a user survives the whole fold. -/
theorem foldl_calm_pres (s : String → Bool) (t : Int) (us : List Account)
    (st : DB × List (String × String)) (v : Account)
    (h : calmUser t st.1 v) :
    calmUser t ((us.foldl (sweepUser s t) st).1) v := by
  induction us generalizing st with
  | nil => exact h
  | cons u us ih => exact ih _ (calmUser_sweep s t st u v h)

/-- When every send succeeds, every swept user ends the fold calm. -/
theorem foldl_calm_all (s : String → Bool) (t : Int)
    (hall : ∀ x, s x = true) (us : List Account)
    (st : DB × List (String × String)) :
    ∀ u ∈ us, calmUser t ((us.foldl (sweepUser s t) st).1) u := by
  induction us generalizing st with
  | nil => intro u hu; cases hu
  | cons a us ih =>
    intro u hu
    rcases List.mem_cons.mp hu with rfl | hu
    · exact foldl_calm_pres s t us _ u (sweepUser_makes_calm s t st u (hall _))
    · exact ih _ u hu

/-- A fold over only-calm users is a complete no-op. -/
theorem foldl_quiet (s : String → Bool) (t : Int) (us : List Account)
    (st : DB × List (String × String))
    (h : ∀ u ∈ us, calmUser t st.1 u) :
    us.foldl (sweepUser s t) st = st := by
  induction us with
  | nil => rfl
  | cons a us ih =>
    rw [List.foldl_cons, sweepUser_calm s t st a (h a (by simp))]
    exact ih (fun u hu => h u (by simp [hu]))

/-- The fold never touches the users table. -/
theorem foldl_users (s : String → Bool) (t : Int) (us : List Account)
    (st : DB × List (String × String)) :
    ((us.foldl (sweepUser s t) st).1).users = st.1.users := by
  induction us generalizing st with
  | nil => rfl
  | cons a us ih => rw [List.foldl_cons, ih, sweepUser_users]

/-- Singapore account with one unsent task: local time at the reference
instant 2024-01-15T10:00:00Z (epoch minute 28421880) is 18:00. -/
def singAcct : Account := ⟨"sing", "free", 0, none, "18:00", "Asia/Singapore"⟩

/-- Store holding `singAcct` and one unsent task. -/
def dbDigest : DB := ⟨[singAcct], [⟨1, "sing", "buy milk", false⟩], 2⟩

/-- Same store but with the account in UTC, where the reference instant
reads 10:00. -/
def dbDigestUTC : DB := ⟨[⟨"utc0", "free", 0, none, "18:00", "UTC"⟩],
  [⟨1, "utc0", "buy milk", false⟩], 2⟩

/-- Claim C4: when every delivery succeeds, a second sweep at the same
reference instant sends nothing at all — the sent flag written by the
first sweep is the only state consulted, so the repeat is a no-op. -/
theorem c4_second_sweep_sends_nothing (db : DB) (t : Int) (s : String → Bool)
    (hall : ∀ x, s x = true) :
    (daily_digest_job (daily_digest_job db t s).1 t s).2 = [] := by
  unfold daily_digest_job
  rw [foldl_users s t db.users (db, [])]
  rw [foldl_quiet s t db.users ((db.users.foldl (sweepUser s t) (db, [])).1, [])
    (fun u hu => foldl_calm_all s t hall db.users (db, []) u hu)]

/-- Claim C4, witness: on a concrete store the first sweep delivers one
digest and the immediately repeated sweep at the same instant delivers
none. -/
theorem c4_witness :
    (daily_digest_job dbDigest 28421880 (fun _ => true)).2.length = 1 ∧
    (daily_digest_job (daily_digest_job dbDigest 28421880 (fun _ => true)).1
        28421880 (fun _ => true)).2 = [] :=
  ⟨by decide, c4_second_sweep_sends_nothing dbDigest 28421880 (fun _ => true)
    (fun x => rfl)⟩

/-- Claim C5: for an account with at least one unsent item, a resolvable
timezone and a deliverable send, the sweep step emits a digest iff the
reference instant rendered in the account's timezone equals its
digest_time as a string — and concretely, the sweep at
2024-01-15T10:00:00Z fires for an 18:00 Asia/Singapore account and not
for an 18:00 UTC account. -/
theorem c5_digest_fire_iff (db : DB) (ms : List (String × String)) (a : Account)
    (t off : Int) (s : String → Bool)
    (htz : pytzOffsetMinutes (if a.timezone = "" then "UTC" else a.timezone) =
      some off)
    (hts : get_unsent_tasks db a.user_id ≠ [])
    (hs : s a.user_id = true) :
    ((sweepUser s t (db, ms) a).2 ≠ ms ↔ localHHMM t off = a.digest_time) ∧
    (daily_digest_job dbDigest 28421880 (fun _ => true)).2.length = 1 ∧
    (daily_digest_job dbDigestUTC 28421880 (fun _ => true)).2 = [] := by
  refine ⟨⟨?_, ?_⟩, by decide, by decide⟩
  · intro hne
    by_contra hloc
    have hd : digestDue t a = false := by simp [digestDue, htz, hloc]
    exact hne (congrArg Prod.snd (sweepUser_not_due s t (db, ms) a hd))
  · intro hloc
    have hd : digestDue t a = true := by simp [digestDue, htz, hloc]
    simp [sweepUser, hd, hts, hs]

/-- Claim C5, witness: the Singapore account fires at the concrete
reference instant. -/
theorem c5_witness :
    (sweepUser (fun _ => true) 28421880 (dbDigest, []) singAcct).2 ≠ [] :=
  ((c5_digest_fire_iff dbDigest [] singAcct 28421880 480 (fun _ => true) rfl
    (by decide) rfl).1).mpr (by decide)

/-- Task ids are unique (the AUTOINCREMENT primary key invariant). -/
def nodupIds (db : DB) : Prop := (db.tasks.map TaskRow.id).Nodup

/-- Marking preserves id uniqueness. -/
theorem nodupIds_mark (db : DB) (ids : List Nat) (h : nodupIds db) :
    nodupIds (mark_tasks_sent db ids) := by
  unfold nodupIds mark_tasks_sent at *
  rw [show ({ db with tasks := db.tasks.map (fun t =>
      if t.id ∈ ids then { t with is_digest_sent := true } else t) } : DB).tasks =
    db.tasks.map (fun t => if t.id ∈ ids then { t with is_digest_sent := true } else t)
    from rfl, List.map_map]
  have hcomp : (TaskRow.id ∘ fun t =>
      if t.id ∈ ids then { t with is_digest_sent := true } else t) = TaskRow.id := by
    funext t
    by_cases ht : t.id ∈ ids <;> simp [ht, Function.comp]
  rw [hcomp]
  exact h

/-- With unique ids, marking the fetched items of one user does not touch
the unsent rows of any other user. -/
theorem get_unsent_other_mark (db : DB) (v w : String) (hne : v ≠ w)
    (hnd : nodupIds db) :
    get_unsent_tasks
        (mark_tasks_sent db ((get_unsent_tasks db v).map TaskRow.id)) w =
      get_unsent_tasks db w := by
  rw [get_unsent_tasks_mark]
  refine List.filter_eq_self.mpr ?_
  intro a ha
  simp only [decide_eq_true_eq]
  intro hin
  rcases List.mem_map.mp hin with ⟨b, hb, hid⟩
  have hamem : a ∈ db.tasks := List.mem_of_mem_filter ha
  have hbmem : b ∈ db.tasks := List.mem_of_mem_filter hb
  have hba : b = a := List.inj_on_of_nodup_map hnd hbmem hamem hid
  have haw : a.user_id = w := by
    have := List.of_mem_filter ha
    simp only [Bool.and_eq_true, beq_iff_eq] at this
    exact this.1
  have hbv : b.user_id = v := by
    have := List.of_mem_filter hb
    simp only [Bool.and_eq_true, beq_iff_eq] at this
    exact this.1
  exact hne (by rw [← hbv, hba, haw])

/-- One sweep step leaves the unsent rows of a user with a failing send
untouched (given unique ids), and preserves uniqueness. -/
theorem sweepUser_unsent_other (s : String → Bool) (t : Int)
    (st : DB × List (String × String)) (u : Account) (w : String)
    (hnd : nodupIds st.1) (hw : s w = false) :
    get_unsent_tasks (sweepUser s t st u).1 w = get_unsent_tasks st.1 w ∧
    nodupIds (sweepUser s t st u).1 := by
  by_cases hd : digestDue t u
  · by_cases he : get_unsent_tasks st.1 u.user_id = []
    · rw [sweepUser_no_tasks s t st u he]
      exact ⟨rfl, hnd⟩
    · by_cases hsend : s u.user_id = true
      · have hne : u.user_id ≠ w := fun h => by
          rw [h, hw] at hsend
          exact Bool.false_ne_true hsend
        have hmark : (sweepUser s t st u).1 =
            mark_tasks_sent st.1 ((get_unsent_tasks st.1 u.user_id).map TaskRow.id) := by
          simp [sweepUser, hd, he, hsend]
        rw [hmark]
        exact ⟨get_unsent_other_mark st.1 u.user_id w hne hnd,
          nodupIds_mark st.1 _ hnd⟩
      · have : sweepUser s t st u = st := by
          simp [sweepUser, hd, he, hsend]
        rw [this]
        exact ⟨rfl, hnd⟩
  · rw [sweepUser_not_due s t st u (eq_false_of_ne_true hd)]
    exact ⟨rfl, hnd⟩

/-- The whole fold leaves the unsent rows of a user with a failing send
untouched. -/
theorem foldl_unsent_other (s : String → Bool) (t : Int) (us : List Account)
    (st : DB × List (String × String)) (w : String)
    (hnd : nodupIds st.1) (hw : s w = false) :
    get_unsent_tasks ((us.foldl (sweepUser s t) st).1) w =
      get_unsent_tasks st.1 w := by
  induction us generalizing st with
  | nil => rfl
  | cons a us ih =>
    rw [List.foldl_cons]
    have h := sweepUser_unsent_other s t st a w hnd hw
    rw [ih (sweepUser s t st a) h.2, h.1]

/-- Claim C6: when the delivery to an account fails (raises), the sweep
marks none of that account's fetched items: its unsent rows — hence their
sent=false flags — are exactly as before, available for retry, provided
task ids are unique (the primary-key invariant). -/
theorem c6_failed_delivery_keeps_unsent (db : DB) (t : Int)
    (s : String → Bool) (w : String)
    (hnd : (db.tasks.map TaskRow.id).Nodup) (hw : s w = false) :
    get_unsent_tasks (daily_digest_job db t s).1 w = get_unsent_tasks db w :=
  foldl_unsent_other s t db.users (db, []) w hnd hw

/-- Claim C6, witness: a failing send on the concrete Singapore store
leaves its unsent task in place. -/
theorem c6_witness :
    get_unsent_tasks (daily_digest_job dbDigest 28421880 (fun _ => false)).1
        "sing" = get_unsent_tasks dbDigest "sing" :=
  c6_failed_delivery_keeps_unsent dbDigest 28421880 (fun _ => false) "sing"
    (by decide) rfl
